import Mathlib

/-
Shallow embedding of the blog-emailing newsletter service (src/main.go).

The SQLite store is modelled as lists in insertion (rowid) order, with
AUTOINCREMENT counters.  Environmental failures (query errors, insert
errors, SMTP outcomes) are injected through an explicit `Faults` record,
mirroring the `err != nil` branches of the Go code.  Timestamps
(DATETIME DEFAULT CURRENT_TIMESTAMP) are passed in as opaque strings.
-/

namespace BlogEmailing

/-- Mirrors Go struct `Subscriber` (main.go:17-22). -/
structure Subscriber where
  id : Nat
  email : String
  name : String
  subscribedAt : String
  deriving Repr, DecidableEq

/-- Mirrors Go struct `Article` (main.go:24-29). -/
structure Article where
  id : Nat
  title : String
  content : String
  publishedAt : String
  deriving Repr, DecidableEq

/-- Mirrors Go struct `SentEmail` (main.go:31-36). -/
structure SentEmail where
  id : Nat
  subscriberID : Nat
  articleID : Nat
  sentAt : String
  deriving Repr, DecidableEq

/-- Mirrors Go struct `AllData` (main.go:38-45). -/
structure AllData where
  subscribers : List Subscriber
  subscriberCount : Nat
  articles : List Article
  articleCount : Nat
  sentEmails : List SentEmail
  sentEmailCount : Nat
  deriving Repr, DecidableEq

/-- The SQLite database of createTables (main.go:81-111): three tables in
rowid (insertion) order plus the AUTOINCREMENT counters. -/
structure Store where
  subscribers : List Subscriber
  articles : List Article
  sentEmails : List SentEmail
  nextSubId : Nat
  nextArtId : Nat
  nextSentId : Nat
  deriving Repr, DecidableEq

/-- An HTTP response as written by the handlers: status code plus the
message passed to http.Error / w.Write. -/
structure Response where
  status : Nat
  body : String
  deriving Repr, DecidableEq

/-- Environmental failure injection for one dispatch run: whether the
subscriber query errors, whether the sent-email COUNT query errors for a
given subscriber id, whether the sent_emails INSERT errors for a given
subscriber id, and whether sendEmail (template + SMTP, main.go:271-309)
succeeds for a given subscriber id. -/
structure Faults where
  subsQueryErr : Bool
  checkErr : Nat → Bool
  insertSentErr : Nat → Bool
  sendOk : Nat → Bool

/-- A fault-free run in which every SMTP send succeeds. -/
def okFaults : Faults :=
  { subsQueryErr := false
    checkErr := fun _ => false
    insertSentErr := fun _ => false
    sendOk := fun _ => true }

/-- Number of sent_emails rows matching `subscriber_id = ? AND article_id = ?`,
the COUNT(*) of hasReceivedArticle (main.go:254). -/
def countSent (st : Store) (subscriberID articleID : Nat) : Nat :=
  (st.sentEmails.filter
    (fun se => se.subscriberID == subscriberID && se.articleID == articleID)).length

/-- getArticle (main.go:227-232): SELECT ... FROM articles WHERE id = ?,
an sql.ErrNoRows error when absent. -/
def getArticle (st : Store) (id : Nat) : Except String Article :=
  match st.articles.find? (fun a => a.id == id) with
  | some a => Except.ok a
  | none => Except.error "sql: no rows in result set"

/-- The row shape produced by getSubscribers (main.go:234-250): only id,
email and name are scanned, SubscribedAt stays at its Go zero value. -/
def subscriberRow (s : Subscriber) : Subscriber :=
  { id := s.id, email := s.email, name := s.name, subscribedAt := "" }

/-- getSubscribers (main.go:234-250): SELECT id, email, name FROM
subscribers, rows in table (insertion) order; a query error is injected
through `queryErr`. -/
def getSubscribers (st : Store) (queryErr : Bool) : Except String (List Subscriber) :=
  if queryErr then Except.error "query error"
  else Except.ok (st.subscribers.map subscriberRow)

/-- hasReceivedArticle (main.go:252-261): COUNT(*) > 0, but `false` when
the query errors (the error is only logged). -/
def hasReceivedArticle (st : Store) (queryErr : Bool) (subscriberID articleID : Nat) : Bool :=
  if queryErr then false
  else decide (0 < countSent st subscriberID articleID)

/-- markEmailSent (main.go:263-269): INSERT INTO sent_emails; an insert
error is only logged, leaving the store unchanged. -/
def markEmailSent (st : Store) (insertErr : Bool) (subscriberID articleID : Nat)
    (now : String) : Store :=
  if insertErr then st
  else
    { st with
      sentEmails := st.sentEmails ++
        [{ id := st.nextSentId, subscriberID := subscriberID,
           articleID := articleID, sentAt := now }]
      nextSentId := st.nextSentId + 1 }

/-- Observable per-subscriber outcome of one loop iteration of
sendNewsletterForArticle (main.go:218-224). -/
inductive Event where
  | skipped (subscriberID : Nat)
  | sendFailed (subscriberID : Nat)
  | sent (subscriberID : Nat)
  deriving Repr, DecidableEq

/-- The subscriber id an event concerns. -/
def Event.subId : Event → Nat
  | .skipped i => i
  | .sendFailed i => i
  | .sent i => i

/-- The per-subscriber loop of sendNewsletterForArticle (main.go:218-224):
skip if a sent-record exists, otherwise attempt the send and on success
insert a sent-record.  Returns the final store and the event trace in
processing order. -/
def sendLoop (art : Article) (f : Faults) (now : String) :
    List Subscriber → Store → Store × List Event
  | [], st => (st, [])
  | sub :: rest, st =>
    if hasReceivedArticle st (f.checkErr sub.id) sub.id art.id then
      let r := sendLoop art f now rest st
      (r.1, Event.skipped sub.id :: r.2)
    else if f.sendOk sub.id then
      let r := sendLoop art f now rest
        (markEmailSent st (f.insertSentErr sub.id) sub.id art.id now)
      (r.1, Event.sent sub.id :: r.2)
    else
      let r := sendLoop art f now rest st
      (r.1, Event.sendFailed sub.id :: r.2)

/-- sendNewsletterForArticle (main.go:204-225): abort (logging only) if the
article lookup or the subscriber query fails, otherwise run the send loop. -/
def sendNewsletterForArticle (st : Store) (articleID : Nat) (f : Faults)
    (now : String) : Store × List Event :=
  match getArticle st articleID with
  | Except.error _ => (st, [])
  | Except.ok article =>
    match getSubscribers st f.subsQueryErr with
    | Except.error _ => (st, [])
    | Except.ok subs => sendLoop article f now subs st

/-- INSERT INTO subscribers (email, name) (main.go:140): fails on the
UNIQUE email constraint (createTables, main.go:86) or on an injected
store fault; otherwise appends the row with the next AUTOINCREMENT id. -/
def insertSubscriber (st : Store) (fault : Option String) (email name now : String) :
    Except String Store :=
  match fault with
  | some e => Except.error e
  | none =>
    if st.subscribers.any (fun s => s.email == email) then
      Except.error "UNIQUE constraint failed: subscribers.email"
    else
      Except.ok
        { st with
          subscribers := st.subscribers ++
            [{ id := st.nextSubId, email := email, name := name, subscribedAt := now }]
          nextSubId := st.nextSubId + 1 }

/-- INSERT INTO articles (title, content) (main.go:165): appends the row,
returning the new store and LastInsertId; a store fault is injected. -/
def insertArticle (st : Store) (fault : Option String) (title content now : String) :
    Except String (Store × Nat) :=
  match fault with
  | some e => Except.error e
  | none =>
    Except.ok
      ({ st with
         articles := st.articles ++
           [{ id := st.nextArtId, title := title, content := content, publishedAt := now }]
         nextArtId := st.nextArtId + 1 }, st.nextArtId)

/-- handleSubscribe (main.go:126-149).  `body` is the result of decoding
the request JSON (error = invalid JSON, with the decoder message). -/
def handleSubscribe (st : Store) (method : String) (body : Except String Subscriber)
    (fault : Option String) (now : String) : Response × Store :=
  if method != "POST" then ({ status := 405, body := "Method not allowed" }, st)
  else
    match body with
    | Except.error e => ({ status := 400, body := e }, st)
    | Except.ok sub =>
      match insertSubscriber st fault sub.email sub.name now with
      | Except.error _ => ({ status := 500, body := "Error subscribing" }, st)
      | Except.ok st' => ({ status := 200, body := "Subscribed successfully" }, st')

/-- handlePublish (main.go:151-179).  The third component is the article id
a background dispatch task was launched for (`go sendNewsletterForArticle`),
if any. -/
def handlePublish (st : Store) (method : String) (body : Except String Article)
    (fault : Option String) (now : String) : Response × Store × Option Nat :=
  if method != "POST" then ({ status := 405, body := "Method not allowed" }, st, none)
  else
    match body with
    | Except.error e => ({ status := 400, body := e }, st, none)
    | Except.ok article =>
      match insertArticle st fault article.title article.content now with
      | Except.error _ => ({ status := 500, body := "Error publishing article" }, st, none)
      | Except.ok (st', articleID) =>
        ({ status := 200, body := "Article published successfully" }, st', some articleID)

/-- Decoded body of POST /api/send-newsletter (main.go:188-190). -/
structure SendNewsletterReq where
  articleID : Nat
  deriving Repr, DecidableEq

/-- handleSendNewsletter (main.go:181-202): never touches the store itself;
the second component is the article id handed to the background dispatch. -/
def handleSendNewsletter (st : Store) (method : String)
    (body : Except String SendNewsletterReq) : Response × Option Nat :=
  if method != "POST" then ({ status := 405, body := "Method not allowed" }, none)
  else
    match body with
    | Except.error e => ({ status := 400, body := e }, none)
    | Except.ok req =>
      let _ := st
      ({ status := 200, body := "Newsletter sending triggered" }, some req.articleID)

/-- getAllSubscribers (main.go:311-327): full-row SELECT in table order. -/
def getAllSubscribers (st : Store) (fault : Option String) :
    Except String (List Subscriber) :=
  match fault with
  | some e => Except.error e
  | none => Except.ok st.subscribers

/-- getAllArticles (main.go:329-345). -/
def getAllArticles (st : Store) (fault : Option String) : Except String (List Article) :=
  match fault with
  | some e => Except.error e
  | none => Except.ok st.articles

/-- getAllSentEmails (main.go:347-363). -/
def getAllSentEmails (st : Store) (fault : Option String) :
    Except String (List SentEmail) :=
  match fault with
  | some e => Except.error e
  | none => Except.ok st.sentEmails

/-- getAllData (main.go:365-389): the three full lists with their lengths
as the counts. -/
def getAllData (st : Store) (fault : Option String) : Except String AllData :=
  match getAllSubscribers st fault with
  | Except.error e => Except.error e
  | Except.ok subscribers =>
    match getAllArticles st fault with
    | Except.error e => Except.error e
    | Except.ok articles =>
      match getAllSentEmails st fault with
      | Except.error e => Except.error e
      | Except.ok sentEmails =>
        Except.ok
          { subscribers := subscribers
            subscriberCount := subscribers.length
            articles := articles
            articleCount := articles.length
            sentEmails := sentEmails
            sentEmailCount := sentEmails.length }

/-- handleGetAllData (main.go:391-403): 500 with the store error message on
failure, otherwise 200 with the JSON-encoded aggregate (the encoding itself
is not modelled; the payload is returned alongside). -/
def handleGetAllData (st : Store) (fault : Option String) : Response × Option AllData :=
  match getAllData st fault with
  | Except.error e => ({ status := 500, body := e }, none)
  | Except.ok data => ({ status := 200, body := "" }, some data)

/-! Helper lemmas about the embedded operations. -/

@[simp]
theorem subscriberRow_id (s : Subscriber) : (subscriberRow s).id = s.id := rfl

@[simp]
theorem markEmailSent_subscribers (st : Store) (e : Bool) (sid aid : Nat) (now : String) :
    (markEmailSent st e sid aid now).subscribers = st.subscribers := by
  unfold markEmailSent; split <;> rfl

@[simp]
theorem markEmailSent_articles (st : Store) (e : Bool) (sid aid : Nat) (now : String) :
    (markEmailSent st e sid aid now).articles = st.articles := by
  unfold markEmailSent; split <;> rfl

/-- A successful article lookup returns a row whose id is the one queried. -/
theorem getArticle_id (st : Store) (i : Nat) (a : Article)
    (h : getArticle st i = Except.ok a) : a.id = i := by
  unfold getArticle at h
  cases hf : st.articles.find? (fun x => x.id == i) with
  | none => rw [hf] at h; cases h
  | some b =>
    rw [hf] at h
    cases h
    simpa using List.find?_some hf

/-- getArticle only reads the articles table. -/
theorem getArticle_congr (st st' : Store) (i : Nat) (h : st'.articles = st.articles) :
    getArticle st' i = getArticle st i := by
  unfold getArticle; rw [h]

/-- The send loop never touches the subscriber table. -/
theorem sendLoop_subscribers (art : Article) (f : Faults) (now : String)
    (subs : List Subscriber) (st : Store) :
    (sendLoop art f now subs st).1.subscribers = st.subscribers := by
  induction subs generalizing st with
  | nil => rfl
  | cons sub rest ih =>
    simp only [sendLoop]
    split
    · exact ih st
    · split
      · rw [ih, markEmailSent_subscribers]
      · exact ih st

/-- The send loop never touches the articles table. -/
theorem sendLoop_articles (art : Article) (f : Faults) (now : String)
    (subs : List Subscriber) (st : Store) :
    (sendLoop art f now subs st).1.articles = st.articles := by
  induction subs generalizing st with
  | nil => rfl
  | cons sub rest ih =>
    simp only [sendLoop]
    split
    · exact ih st
    · split
      · rw [ih, markEmailSent_articles]
      · exact ih st

/-- The send loop produces exactly one event per subscriber, in list order. -/
theorem sendLoop_trace (art : Article) (f : Faults) (now : String)
    (subs : List Subscriber) (st : Store) :
    (sendLoop art f now subs st).2.map Event.subId = subs.map Subscriber.id := by
  induction subs generalizing st with
  | nil => rfl
  | cons sub rest ih =>
    simp only [sendLoop]
    split
    · simp [Event.subId, ih]
    · split
      · simp [Event.subId, ih]
      · simp [Event.subId, ih]

/-- The send loop only appends sent-records, and only for subscribers whose
SMTP send succeeded, always for the dispatched article. -/
theorem sendLoop_sentEmails (art : Article) (f : Faults) (now : String)
    (subs : List Subscriber) (st : Store) :
    ∃ added : List SentEmail,
      (sendLoop art f now subs st).1.sentEmails = st.sentEmails ++ added ∧
      ∀ r ∈ added, f.sendOk r.subscriberID = true ∧ r.articleID = art.id := by
  induction subs generalizing st with
  | nil => exact ⟨[], by simp [sendLoop]⟩
  | cons sub rest ih =>
    simp only [sendLoop]
    split
    · exact ih st
    · split
      next hsend =>
        obtain ⟨added, he, hall⟩ :=
          ih (markEmailSent st (f.insertSentErr sub.id) sub.id art.id now)
        by_cases hi : f.insertSentErr sub.id
        · refine ⟨added, ?_, hall⟩
          rw [he]
          simp [markEmailSent, hi]
        · refine ⟨({ id := st.nextSentId, subscriberID := sub.id, articleID := art.id, sentAt := now } : SentEmail) :: added, ?_, ?_⟩
          · rw [he]
            simp [markEmailSent, hi]
          · intro r hr
            rcases List.mem_cons.mp hr with h | h
            · subst h; exact ⟨hsend, rfl⟩
            · exact hall r h
      · exact ih st

/-- Unfolding dispatch when the article lookup and subscriber query succeed. -/
theorem dispatch_eq_sendLoop (st : Store) (aid : Nat) (a : Article) (f : Faults)
    (now : String) (hart : getArticle st aid = Except.ok a)
    (hq : f.subsQueryErr = false) :
    sendNewsletterForArticle st aid f now =
      sendLoop a f now (st.subscribers.map subscriberRow) st := by
  unfold sendNewsletterForArticle
  rw [hart]
  simp [getSubscribers, hq]

/-- Dispatch over a single-subscriber store reduces to the three-way case
split of one loop iteration. -/
theorem dispatch_singleton (st : Store) (aid : Nat) (s : Subscriber) (a : Article)
    (f : Faults) (now : String)
    (hsubs : st.subscribers = [s]) (hart : getArticle st aid = Except.ok a)
    (hq : f.subsQueryErr = false) :
    sendNewsletterForArticle st aid f now =
      if hasReceivedArticle st (f.checkErr s.id) s.id aid then
        (st, [Event.skipped s.id])
      else if f.sendOk s.id then
        (markEmailSent st (f.insertSentErr s.id) s.id aid now, [Event.sent s.id])
      else (st, [Event.sendFailed s.id]) := by
  have hid := getArticle_id st aid a hart
  rw [dispatch_eq_sendLoop st aid a f now hart hq, hsubs]
  simp only [List.map_cons, List.map_nil, sendLoop, subscriberRow_id, hid]

/-- Single-subscriber dispatch when the existence check says "not received"
and the SMTP send succeeds: one send event and one insert attempt. -/
theorem dispatch_singleton_sends (st : Store) (aid : Nat) (s : Subscriber) (a : Article)
    (f : Faults) (now : String)
    (hsubs : st.subscribers = [s]) (hart : getArticle st aid = Except.ok a)
    (hq : f.subsQueryErr = false)
    (hc : hasReceivedArticle st (f.checkErr s.id) s.id aid = false)
    (hok : f.sendOk s.id = true) :
    sendNewsletterForArticle st aid f now
      = (markEmailSent st (f.insertSentErr s.id) s.id aid now, [Event.sent s.id]) := by
  rw [dispatch_singleton st aid s a f now hsubs hart hq, hc, hok]
  simp

/-- Single-subscriber dispatch when the existence check finds a record:
the subscriber is skipped and the store is untouched. -/
theorem dispatch_singleton_skips (st : Store) (aid : Nat) (s : Subscriber) (a : Article)
    (f : Faults) (now : String)
    (hsubs : st.subscribers = [s]) (hart : getArticle st aid = Except.ok a)
    (hq : f.subsQueryErr = false)
    (hc : hasReceivedArticle st (f.checkErr s.id) s.id aid = true) :
    sendNewsletterForArticle st aid f now = (st, [Event.skipped s.id]) := by
  rw [dispatch_singleton st aid s a f now hsubs hart hq, hc]
  simp

/-- Recording a successful send bumps the matching sent-record count by one. -/
theorem countSent_markEmailSent_self (st : Store) (sid aid : Nat) (now : String) :
    countSent (markEmailSent st false sid aid now) sid aid = countSent st sid aid + 1 := by
  simp [countSent, markEmailSent, List.filter_append]

/-! Concrete fixtures used by witnesses. -/

/-- A sample subscriber row. -/
def sampleSubscriber : Subscriber :=
  { id := 1, email := "a@x.com", name := "Alice", subscribedAt := "2024-01-01" }

/-- A second sample subscriber row. -/
def sampleSubscriber2 : Subscriber :=
  { id := 2, email := "b@x.com", name := "Bob", subscribedAt := "2024-01-03" }

/-- A sample article row. -/
def sampleArticle : Article :=
  { id := 1, title := "Hi", content := "Body", publishedAt := "2024-01-02" }

/-- One subscriber, one article, no sent-records. -/
def sampleStore : Store :=
  { subscribers := [sampleSubscriber], articles := [sampleArticle], sentEmails := []
    nextSubId := 2, nextArtId := 2, nextSentId := 1 }

/-- Two subscribers, one article, no sent-records. -/
def sampleStore2 : Store :=
  { subscribers := [sampleSubscriber, sampleSubscriber2], articles := [sampleArticle]
    sentEmails := [], nextSubId := 3, nextArtId := 2, nextSentId := 1 }

/-- One subscriber, one article, and an existing sent-record for the pair. -/
def sampleStoreSent : Store :=
  { subscribers := [sampleSubscriber], articles := [sampleArticle]
    sentEmails := [{ id := 1, subscriberID := 1, articleID := 1, sentAt := "2024-01-02" }]
    nextSubId := 2, nextArtId := 2, nextSentId := 2 }

/-- SMTP fails for subscriber id 1, succeeds for everyone else. -/
def failFirstFaults : Faults :=
  { subsQueryErr := false
    checkErr := fun _ => false
    insertSentErr := fun _ => false
    sendOk := fun i => i != 1 }

/-- The sent-record existence query errors for every subscriber; sends succeed. -/
def checkErrFaults : Faults :=
  { subsQueryErr := false
    checkErr := fun _ => true
    insertSentErr := fun _ => false
    sendOk := fun _ => true }

/-- The sent-record INSERT errors for every subscriber; sends succeed. -/
def insertErrFaults : Faults :=
  { subsQueryErr := false
    checkErr := fun _ => false
    insertSentErr := fun _ => true
    sendOk := fun _ => true }

/-! Claim theorems. -/

/-- Claim C1: dispatch is idempotent. For any store holding a single
subscriber, an article resolvable by the dispatched id, and no sent-record
yet for that (subscriber, article) pair, running dispatch twice with all
sends succeeding leaves exactly one sent-record for the pair; the first run
sends, and the second run only skips (the existence check finds the record
inserted by the first run), performing no send. -/
theorem c1_dispatch_idempotent (st : Store) (aid : Nat) (s : Subscriber) (a : Article)
    (n1 n2 : String)
    (hsubs : st.subscribers = [s]) (hart : getArticle st aid = Except.ok a)
    (h0 : countSent st s.id aid = 0) :
    countSent (sendNewsletterForArticle
      (sendNewsletterForArticle st aid okFaults n1).1 aid okFaults n2).1 s.id aid = 1
    ∧ (sendNewsletterForArticle st aid okFaults n1).2 = [Event.sent s.id]
    ∧ (sendNewsletterForArticle
        (sendNewsletterForArticle st aid okFaults n1).1 aid okFaults n2).2
      = [Event.skipped s.id] := by
  have hnr : hasReceivedArticle st false s.id aid = false := by
    simp [hasReceivedArticle, h0]
  have h1 : sendNewsletterForArticle st aid okFaults n1
      = (markEmailSent st false s.id aid n1, [Event.sent s.id]) :=
    dispatch_singleton_sends st aid s a okFaults n1 hsubs hart rfl hnr rfl
  have hc1 : countSent (markEmailSent st false s.id aid n1) s.id aid = 1 := by
    rw [countSent_markEmailSent_self, h0]
  have hsubs1 : (markEmailSent st false s.id aid n1).subscribers = [s] := by
    rw [markEmailSent_subscribers, hsubs]
  have hart1 : getArticle (markEmailSent st false s.id aid n1) aid = Except.ok a :=
    (getArticle_congr st _ aid (markEmailSent_articles ..)).trans hart
  have hr1 : hasReceivedArticle (markEmailSent st false s.id aid n1) false s.id aid = true := by
    simp [hasReceivedArticle, hc1]
  have h2 : sendNewsletterForArticle (markEmailSent st false s.id aid n1) aid okFaults n2
      = (markEmailSent st false s.id aid n1, [Event.skipped s.id]) :=
    dispatch_singleton_skips _ aid s a okFaults n2 hsubs1 hart1 rfl hr1
  rw [h1]
  simp only [h2]
  exact ⟨hc1, trivial, trivial⟩

/-- Claim C2: with a resolvable article and a successful subscriber query,
dispatch processes the subscribers sequentially in store-query order, with
exactly one loop event per subscriber (so a failed send is never retried and
every subsequent subscriber is still processed); and for a subscriber whose
SMTP send fails, no sent-record is inserted for that subscriber. -/
theorem c2_send_failure_isolated (st : Store) (aid : Nat) (a : Article) (f : Faults)
    (now : String) (s : Subscriber)
    (hart : getArticle st aid = Except.ok a) (hq : f.subsQueryErr = false)
    (hs : s ∈ st.subscribers) (hfail : f.sendOk s.id = false) :
    (sendNewsletterForArticle st aid f now).2.map Event.subId
      = st.subscribers.map Subscriber.id
    ∧ countSent (sendNewsletterForArticle st aid f now).1 s.id aid
      = countSent st s.id aid := by
  rw [dispatch_eq_sendLoop st aid a f now hart hq]
  constructor
  · rw [sendLoop_trace]
    simp [subscriberRow]
  · obtain ⟨added, he, hall⟩ :=
      sendLoop_sentEmails a f now (st.subscribers.map subscriberRow) st
    unfold countSent
    rw [he, List.filter_append, List.length_append]
    have hnil : added.filter
        (fun se => se.subscriberID == s.id && se.articleID == aid) = [] := by
      rw [List.filter_eq_nil_iff]
      intro r hr hmatch
      have hsid : r.subscriberID = s.id := by
        have := Bool.and_elim_left hmatch
        simpa using this
      have hok := (hall r hr).1
      rw [hsid, hfail] at hok
      cases hok
    rw [hnil]
    rfl

/-- Claim C3: dispatching an article id that resolves to no stored article
aborts after the failed lookup — the store (in particular its sent-records)
is unchanged and no subscriber is processed or emailed — while the POST
/api/send-newsletter handler that triggered it still responds 200. -/
theorem c3_missing_article_aborts (st : Store) (aid : Nat) (f : Faults) (now : String)
    (h : ∀ a ∈ st.articles, a.id ≠ aid) :
    sendNewsletterForArticle st aid f now = (st, [])
    ∧ handleSendNewsletter st "POST" (Except.ok ⟨aid⟩)
      = ({ status := 200, body := "Newsletter sending triggered" }, some aid) := by
  constructor
  · have hfind : st.articles.find? (fun a => a.id == aid) = none := by
      rw [List.find?_eq_none]
      intro a ha
      simpa using h a ha
    unfold sendNewsletterForArticle getArticle
    rw [hfind]
  · simp [handleSendNewsletter]

/-- Claim C4: for every store state, the stats aggregate returns exactly the
stored subscriber, article and sent-record lists, with each count field equal
to the length of the corresponding list; the handler responds 200 with it. -/
theorem c4_stats_aggregate_correct (st : Store) :
    getAllData st none = Except.ok
      { subscribers := st.subscribers, subscriberCount := st.subscribers.length
        articles := st.articles, articleCount := st.articles.length
        sentEmails := st.sentEmails, sentEmailCount := st.sentEmails.length }
    ∧ handleGetAllData st none = ({ status := 200, body := "" }, some
      { subscribers := st.subscribers, subscriberCount := st.subscribers.length
        articles := st.articles, articleCount := st.articles.length
        sentEmails := st.sentEmails, sentEmailCount := st.sentEmails.length }) :=
  ⟨rfl, rfl⟩

/-- Claim C5: a request body that fails JSON decoding makes each of the
subscribe, publish and send-newsletter handlers respond 400, with the store
unchanged and no dispatch task launched. -/
theorem c5_invalid_json_rejected (st : Store) (e : String) (fault : Option String)
    (now : String) :
    handleSubscribe st "POST" (Except.error e) fault now
      = ({ status := 400, body := e }, st)
    ∧ handlePublish st "POST" (Except.error e) fault now
      = ({ status := 400, body := e }, st, none)
    ∧ handleSendNewsletter st "POST" (Except.error e)
      = ({ status := 400, body := e }, none) := by
  refine ⟨?_, ?_, ?_⟩ <;> simp [handleSubscribe, handlePublish, handleSendNewsletter]

/-- Claim C6: subscribing an email address already present among the
subscribers fails at the store's UNIQUE email constraint; the handler
responds 500 and the store is unchanged. -/
theorem c6_duplicate_email_500 (st : Store) (sub : Subscriber) (now : String)
    (hdup : ∃ s ∈ st.subscribers, s.email = sub.email) :
    handleSubscribe st "POST" (Except.ok sub) none now
      = ({ status := 500, body := "Error subscribing" }, st) := by
  have hany : st.subscribers.any (fun s => s.email == sub.email) = true := by
    obtain ⟨s, hsmem, he⟩ := hdup
    exact List.any_eq_true.mpr ⟨s, hsmem, by simp [he]⟩
  simp [handleSubscribe, insertSubscriber, hany]

/-- Claim C7 counterexample: on a failing subscriber insert (duplicate
email) the handler's response body is the fixed string "Error subscribing",
not the underlying store error message — the claim that the underlying
error message is exposed to the caller is false. -/
theorem c7_underlying_error_not_exposed :
    insertSubscriber sampleStore none "a@x.com" "Bob" "2024-01-03"
      = Except.error "UNIQUE constraint failed: subscribers.email"
    ∧ (handleSubscribe sampleStore "POST"
        (Except.ok { id := 0, email := "a@x.com", name := "Bob", subscribedAt := "" })
        none "2024-01-03").1.body = "Error subscribing"
    ∧ "Error subscribing" ≠ "UNIQUE constraint failed: subscribers.email" := by
  refine ⟨rfl, rfl, by decide⟩

/-- Claim C7 as amended: whenever a store insert fails in the subscribe or
publish handler, the handler responds 500 with a generic fixed message
("Error subscribing" / "Error publishing article") — the underlying store
error message is not exposed — and the store is unchanged. -/
theorem c7_store_failure_generic_500 (st : Store) (sub : Subscriber) (art : Article)
    (fault : Option String) (now : String) (es ea : String)
    (hsub : insertSubscriber st fault sub.email sub.name now = Except.error es)
    (hart : insertArticle st fault art.title art.content now = Except.error ea) :
    handleSubscribe st "POST" (Except.ok sub) fault now
      = ({ status := 500, body := "Error subscribing" }, st)
    ∧ handlePublish st "POST" (Except.ok art) fault now
      = ({ status := 500, body := "Error publishing article" }, st, none) := by
  constructor
  · simp [handleSubscribe, hsub]
  · simp [handlePublish, hart]

/-- Claim C8: the subscriber query used by dispatch returns the rows in
insertion order — a successful insert appends its row at the end of what
query-all-subscribers yields, with the store-assigned next id. -/
theorem c8_subscribers_insertion_order (st st' : Store) (email name now : String)
    (h : insertSubscriber st none email name now = Except.ok st') :
    getSubscribers st' false = Except.ok (st.subscribers.map subscriberRow
      ++ [{ id := st.nextSubId, email := email, name := name, subscribedAt := "" }]) := by
  simp only [insertSubscriber] at h
  split at h
  · cases h
  · cases h
    simp [getSubscribers, subscriberRow]

/-- Claim C9: the pre-send existence check fails open. When the sent-record
count query errors, hasReceivedArticle returns false, so a single sequential
dispatch run attempts the send anyway and, on success, inserts a second
sent-record for a subscriber who already has one — violating at-most-once. -/
theorem c9_check_fails_open (st : Store) (aid : Nat) (s : Subscriber) (a : Article)
    (now : String)
    (hsubs : st.subscribers = [s]) (hart : getArticle st aid = Except.ok a)
    (h1 : 1 ≤ countSent st s.id aid) :
    hasReceivedArticle st true s.id aid = false
    ∧ (sendNewsletterForArticle st aid checkErrFaults now).2 = [Event.sent s.id]
    ∧ countSent (sendNewsletterForArticle st aid checkErrFaults now).1 s.id aid
      = countSent st s.id aid + 1
    ∧ 2 ≤ countSent (sendNewsletterForArticle st aid checkErrFaults now).1 s.id aid := by
  have hd : sendNewsletterForArticle st aid checkErrFaults now
      = (markEmailSent st false s.id aid now, [Event.sent s.id]) :=
    dispatch_singleton_sends st aid s a checkErrFaults now hsubs hart rfl rfl rfl
  refine ⟨rfl, ?_, ?_, ?_⟩
  · rw [hd]
  · rw [hd]
    exact countSent_markEmailSent_self st s.id aid now
  · rw [hd, countSent_markEmailSent_self st s.id aid now]
    omega

/-- Claim C10: a failing sent-record insert after a successful send is
swallowed — dispatch continues, the store is left entirely unchanged (no
record for the pair), and a later fault-free dispatch of the same article
emails that subscriber again. -/
theorem c10_mark_sent_error_swallowed (st : Store) (aid : Nat) (s : Subscriber)
    (a : Article) (n1 n2 : String)
    (hsubs : st.subscribers = [s]) (hart : getArticle st aid = Except.ok a)
    (h0 : countSent st s.id aid = 0) :
    sendNewsletterForArticle st aid insertErrFaults n1 = (st, [Event.sent s.id])
    ∧ (sendNewsletterForArticle st aid okFaults n2).2 = [Event.sent s.id] := by
  have hnr : hasReceivedArticle st false s.id aid = false := by
    simp [hasReceivedArticle, h0]
  constructor
  · have hd : sendNewsletterForArticle st aid insertErrFaults n1
        = (markEmailSent st true s.id aid n1, [Event.sent s.id]) :=
      dispatch_singleton_sends st aid s a insertErrFaults n1 hsubs hart rfl hnr rfl
    rw [hd]
    simp [markEmailSent]
  · have hd : sendNewsletterForArticle st aid okFaults n2
        = (markEmailSent st false s.id aid n2, [Event.sent s.id]) :=
      dispatch_singleton_sends st aid s a okFaults n2 hsubs hart rfl hnr rfl
    rw [hd]

/-! Witnesses: each hypothesized claim theorem applied at a concrete input. -/

/-- Claim C1 witness at the one-subscriber sample store. -/
theorem c1_dispatch_idempotent_witness :
    countSent (sendNewsletterForArticle
      (sendNewsletterForArticle sampleStore 1 okFaults "t1").1 1 okFaults "t2").1 1 1 = 1
    ∧ (sendNewsletterForArticle sampleStore 1 okFaults "t1").2 = [Event.sent 1]
    ∧ (sendNewsletterForArticle
        (sendNewsletterForArticle sampleStore 1 okFaults "t1").1 1 okFaults "t2").2
      = [Event.skipped 1] :=
  c1_dispatch_idempotent sampleStore 1 sampleSubscriber sampleArticle "t1" "t2" rfl rfl rfl

/-- Claim C2 witness: two subscribers, the first one's SMTP send fails. -/
theorem c2_send_failure_isolated_witness :
    (sendNewsletterForArticle sampleStore2 1 failFirstFaults "t").2.map Event.subId
      = [1, 2]
    ∧ countSent (sendNewsletterForArticle sampleStore2 1 failFirstFaults "t").1 1 1
      = countSent sampleStore2 1 1 :=
  c2_send_failure_isolated sampleStore2 1 sampleArticle failFirstFaults "t"
    sampleSubscriber rfl rfl (by decide) rfl

/-- Claim C3 witness: article id 5 is not in the sample store. -/
theorem c3_missing_article_aborts_witness :
    sendNewsletterForArticle sampleStore 5 okFaults "t" = (sampleStore, [])
    ∧ handleSendNewsletter sampleStore "POST" (Except.ok ⟨5⟩)
      = ({ status := 200, body := "Newsletter sending triggered" }, some 5) :=
  c3_missing_article_aborts sampleStore 5 okFaults "t" (by decide)

/-- Claim C6 witness: re-subscribing the already-present email. -/
theorem c6_duplicate_email_500_witness :
    handleSubscribe sampleStore "POST"
      (Except.ok { id := 0, email := "a@x.com", name := "Bob", subscribedAt := "" })
      none "t"
      = ({ status := 500, body := "Error subscribing" }, sampleStore) :=
  c6_duplicate_email_500 sampleStore
    { id := 0, email := "a@x.com", name := "Bob", subscribedAt := "" } "t"
    ⟨sampleSubscriber, by decide, rfl⟩

/-- Claim C7 (amended) witness: an injected store fault on both inserts. -/
theorem c7_store_failure_generic_500_witness :
    handleSubscribe sampleStore "POST"
      (Except.ok { id := 0, email := "c@x.com", name := "Cara", subscribedAt := "" })
      (some "disk I/O error") "t"
      = ({ status := 500, body := "Error subscribing" }, sampleStore)
    ∧ handlePublish sampleStore "POST"
      (Except.ok { id := 0, title := "T", content := "C", publishedAt := "" })
      (some "disk I/O error") "t"
      = ({ status := 500, body := "Error publishing article" }, sampleStore, none) :=
  c7_store_failure_generic_500 sampleStore
    { id := 0, email := "c@x.com", name := "Cara", subscribedAt := "" }
    { id := 0, title := "T", content := "C", publishedAt := "" }
    (some "disk I/O error") "t" "disk I/O error" "disk I/O error" rfl rfl

/-- Claim C8 witness: inserting a fresh email into the sample store. -/
theorem c8_subscribers_insertion_order_witness :
    getSubscribers
      { subscribers := [sampleSubscriber,
          { id := 2, email := "b@x.com", name := "Bob", subscribedAt := "t" }]
        articles := [sampleArticle], sentEmails := []
        nextSubId := 3, nextArtId := 2, nextSentId := 1 } false
      = Except.ok (sampleStore.subscribers.map subscriberRow
        ++ [{ id := 2, email := "b@x.com", name := "Bob", subscribedAt := "" }]) :=
  c8_subscribers_insertion_order sampleStore _ "b@x.com" "Bob" "t" rfl

/-- Claim C9 witness: the pair already has a record and the check errors. -/
theorem c9_check_fails_open_witness :
    hasReceivedArticle sampleStoreSent true 1 1 = false
    ∧ (sendNewsletterForArticle sampleStoreSent 1 checkErrFaults "t").2 = [Event.sent 1]
    ∧ countSent (sendNewsletterForArticle sampleStoreSent 1 checkErrFaults "t").1 1 1
      = countSent sampleStoreSent 1 1 + 1
    ∧ 2 ≤ countSent (sendNewsletterForArticle sampleStoreSent 1 checkErrFaults "t").1 1 1 :=
  c9_check_fails_open sampleStoreSent 1 sampleSubscriber sampleArticle "t" rfl rfl
    (by decide)

/-- Claim C10 witness: the insert errors on the first run, a fault-free
second run sends again. -/
theorem c10_mark_sent_error_swallowed_witness :
    sendNewsletterForArticle sampleStore 1 insertErrFaults "t1"
      = (sampleStore, [Event.sent 1])
    ∧ (sendNewsletterForArticle sampleStore 1 okFaults "t2").2 = [Event.sent 1] :=
  c10_mark_sent_error_swallowed sampleStore 1 sampleSubscriber sampleArticle "t1" "t2"
    rfl rfl rfl

end BlogEmailing
